import Mathlib

/-!
Shallow embedding of `src/email-parser.py` (the email ingestion/enrichment
pipeline) and verification of the frozen claims about it.

Modelling conventions:
- Python ints are `Nat`/`Int`/`Rat`; strings are `String`.
- External collaborators (Supabase store, Gmail, GPTZero HTTP) are modelled
  by per-item environment values describing the outcome each call would have
  (an `Except Unit _` where the Python code could raise).
- Base64url-decoding of a body part is abstracted: the `data` field of a part
  holds the already-decoded string, since no claim concerns base64 itself.
- `print` calls and `time.sleep` are pure no-ops and are omitted; the run's
  observable behaviour is captured as a trace of collaborator-call events.
-/

namespace EmailParser

/-- Characters matched by the regex class `\w` in `count_words`,
modelled as alphanumeric-or-underscore. -/
def isWordChar (c : Char) : Bool := c.isAlphanum || c == '_'

/-- Number of maximal runs of word characters in a character list.  The
Boolean argument records whether the previous character was a word
character (so a word character starts a new run exactly when it is `false`). -/
def countWordsAux : List Char → Bool → Nat
  | [], _ => 0
  | c :: cs, inWord =>
    if isWordChar c then (if inWord then 0 else 1) + countWordsAux cs true
    else countWordsAux cs false

/-- `count_words(text)`: the length of `re.findall(r"\b\w+\b", text)`,
i.e. the number of maximal word-character runs in `text`. -/
def count_words (text : String) : Nat := countWordsAux text.data false

/-- The mutable state of the Python class `UsageTracker`. -/
structure UsageTracker where
  word_count : Nat
  word_limit : Nat
  emails_processed : Nat
deriving DecidableEq

/-- `UsageTracker.__init__(limit)`: fresh tracker. The Python default for
`limit` is 300000 (see `DEFAULT_WORD_LIMIT`). -/
def UsageTracker.init (limit : Nat) : UsageTracker :=
  { word_count := 0, word_limit := limit, emails_processed := 0 }

/-- The default `limit` argument of `UsageTracker.__init__`, used by `main`. -/
def DEFAULT_WORD_LIMIT : Nat := 300000

/-- `UsageTracker.add_usage(text)`: counts words, adds them to `word_count`,
increments `emails_processed`, returns the word count charged.  Modelled as
returning the updated tracker together with the returned count. -/
def UsageTracker.add_usage (t : UsageTracker) (text : String) : UsageTracker × Nat :=
  let words := count_words text
  ({ word_count := t.word_count + words
     word_limit := t.word_limit
     emails_processed := t.emails_processed + 1 }, words)

/-- The dictionary returned by `UsageTracker.get_stats`. -/
structure UsageStats where
  total_words : Nat
  percentage_used : Rat
  words_remaining : Int
  emails_processed : Nat
  average_words_per_email : Rat
deriving DecidableEq

/-- `UsageTracker.get_stats()`: read-only derived view of the tracker. -/
def UsageTracker.get_stats (t : UsageTracker) : UsageStats :=
  { total_words := t.word_count
    percentage_used := ((t.word_count : Rat) / (t.word_limit : Rat)) * 100
    words_remaining := (t.word_limit : Int) - (t.word_count : Int)
    emails_processed := t.emails_processed
    average_words_per_email :=
      if 0 < t.emails_processed then (t.word_count : Rat) / (t.emails_processed : Rat) else 0 }

/-- A row of the Supabase `emails` table as consumed by
`check_email_exists`: only the fields the code reads are modelled. -/
structure EmailRow where
  message_id : String
  gpt_zero_ai : Option Rat
  gpt_zero_human : Option Rat
deriving DecidableEq

/-- `check_email_exists(supabase, message_id)`: the argument models the
outcome of the Supabase select — `Except.error` if the query raised, else
the `response.data` row list.  Returns `(found, has_scores)`; any exception
is caught and yields `(False, False)`. -/
def check_email_exists (lookup : Except Unit (List EmailRow)) : Bool × Bool :=
  match lookup with
  | .error _ => (false, false)
  | .ok [] => (false, false)
  | .ok (email :: _) =>
    (true, email.gpt_zero_ai.isSome && email.gpt_zero_human.isSome)

/-- Outcome of the GPTZero HTTP request made inside `get_gptzero_scores`:
HTTP 200 with the (optional) `ai` / `human` fields of
`class_probabilities`, HTTP 429, another status code, or a raised
exception (network failure, missing response fields, ...). -/
inductive ClassifierResponse where
  | success (ai : Option Rat) (human : Option Rat)
  | rateLimited
  | httpError (status : Nat)
  | exn
deriving DecidableEq

/-- `get_gptzero_scores(text, usage_tracker)`: charges the tracker via
`add_usage` FIRST (before the HTTP call), then returns `(ai, human)` scores
on HTTP 200 (missing probability fields default to 0), and `(None, None)`
on rate limit, other HTTP error, or exception.  `resp` models the outcome
the HTTP request would have. -/
def get_gptzero_scores (text : String) (t : UsageTracker) (resp : ClassifierResponse) :
    UsageTracker × Option Rat × Option Rat :=
  let charged := t.add_usage text
  let t1 := charged.1
  match resp with
  | .success ai human => (t1, some (ai.getD 0), some (human.getD 0))
  | .rateLimited => (t1, none, none)
  | .httpError _ => (t1, none, none)
  | .exn => (t1, none, none)

/-- The `body` dictionary of a message part; `data` holds the decoded
string when the `data` key is present (base64url decoding abstracted). -/
structure PartBody where
  data : Option String
deriving DecidableEq

/-- A message payload part: its `mimeType` and its `body`. -/
structure MessagePart where
  mimeType : String
  body : PartBody
deriving DecidableEq

/-- A Gmail message payload: optional `parts` list (present iff the key
`parts` is in the payload dict), optional top-level `body`, and headers. -/
structure Payload where
  parts : Option (List MessagePart)
  body : Option PartBody
  headers : List (String × String)
deriving DecidableEq

/-- A fetched Gmail message (only the `payload` is consumed). -/
structure Message where
  payload : Payload
deriving DecidableEq

/-- The part-scanning loop of `get_email_body`: the decoded data of the first
part whose `mimeType` is `text/plain` AND whose body has a `data` key;
the empty string if no part qualifies. -/
def firstPlainData : List MessagePart → String
  | [] => ""
  | p :: rest =>
    if p.mimeType == "text/plain" then
      match p.body.data with
      | some d => d
      | none => firstPlainData rest
    else firstPlainData rest

/-- `get_email_body(message)`: if the payload has `parts`, scan them for a
`text/plain` part carrying data; otherwise use the top-level body's data if
present; otherwise the empty string. -/
def get_email_body (message : Message) : String :=
  match message.payload.parts with
  | some parts => firstPlainData parts
  | none =>
    match message.payload.body with
    | some b =>
      match b.data with
      | some d => d
      | none => ""
    | none => ""

/-- The sender extraction in `main`: value of the first header whose name
lower-cases to `from`, or the empty string. -/
def get_sender (m : Message) : String :=
  match m.payload.headers.find? (fun h => h.1.toLower == "from") with
  | some h => h.2
  | none => ""

/-- `upsert_email(supabase, email_data)`: the argument models the outcome of
the Supabase upsert.  An exception is caught and yields `None` (here
`none`); success yields the result object (here `some ()`). -/
def upsert_email (outcome : Except Unit Unit) : Option Unit :=
  match outcome with
  | .ok r => some r
  | .error _ => none

/-- The `email_data` dictionary built in `main`: identity, sender, body, and
the optional pair of scores (`gpt_zero_ai`, `gpt_zero_human`) — present
together or absent together, exactly as the code builds the dict. -/
structure EmailData where
  message_id : String
  sender : String
  body : String
  scores : Option (Rat × Rat)
deriving DecidableEq

/-- Observable collaborator calls made by the pipeline, in order: the store
existence lookup, the Gmail message fetch, the GPTZero classify call (with
the submitted text), and the store upsert (with the record written). -/
inductive Event where
  | checkExists (id : String)
  | fetchMsg (id : String)
  | classify (id : String) (text : String)
  | upsert (id : String) (data : EmailData)
deriving DecidableEq

/-- The `stats` dictionary of `main`. -/
structure Stats where
  processed : Nat
  skipped_existing : Nat
  skipped_rate_limit : Nat
  errors : Nat
deriving DecidableEq

/-- All-zero statistics, as initialised at the start of `main`. -/
def Stats.init : Stats :=
  { processed := 0, skipped_existing := 0, skipped_rate_limit := 0, errors := 0 }

instance {ε α : Type} [DecidableEq ε] [DecidableEq α] : DecidableEq (Except ε α) := fun a b =>
  match a, b with
  | .ok x, .ok y =>
    if h : x = y then .isTrue (h ▸ rfl) else .isFalse (fun c => h (Except.ok.inj c))
  | .error x, .error y =>
    if h : x = y then .isTrue (h ▸ rfl) else .isFalse (fun c => h (Except.error.inj c))
  | .ok _, .error _ => .isFalse (fun c => Except.noConfusion c)
  | .error _, .ok _ => .isFalse (fun c => Except.noConfusion c)

/-- Per-item environment: the candidate identity together with the outcome
each external call would have for this item (`Except.error` models a raised
exception at that call site). -/
structure ItemEnv where
  message_id : String
  lookup : Except Unit (List EmailRow)
  fetch : Except Unit Message
  classifier : ClassifierResponse
  upsert : Except Unit Unit
deriving DecidableEq

/-- Result of one iteration of the `for` loop in `main`: updated tracker and
stats, the collaborator calls made, and whether the iteration executed
`break` (the quota circuit breaker). -/
structure ItemResult where
  tracker : UsageTracker
  stats : Stats
  events : List Event
  halt : Bool
deriving DecidableEq

/-- One iteration of the `for` loop body of `main` for one candidate item.
Mirrors the Python control flow: existence check, skip when already scored,
fetch (a raised fetch exception is caught by the per-item handler and
counted in `errors`), empty-body skip, the pre-flight quota check with
`break`, the classifier call (charging the tracker) when the record has no
scores, and the unconditional upsert whose failure is swallowed. -/
def process_item (t : UsageTracker) (s : Stats) (env : ItemEnv) : ItemResult :=
  let message_id := env.message_id
  let checked := check_email_exists env.lookup
  let ev0 : List Event := [Event.checkExists message_id]
  if checked.1 && checked.2 then
    { tracker := t
      stats := { s with skipped_existing := s.skipped_existing + 1 }
      events := ev0
      halt := false }
  else
    match env.fetch with
    | .error _ =>
      { tracker := t
        stats := { s with errors := s.errors + 1 }
        events := ev0 ++ [Event.fetchMsg message_id]
        halt := false }
    | .ok message =>
      let sender := get_sender message
      let body := get_email_body message
      let ev1 := ev0 ++ [Event.fetchMsg message_id]
      if body == "" then
        { tracker := t
          stats := { s with errors := s.errors + 1 }
          events := ev1
          halt := false }
      else
        let words := count_words body
        let total_after := t.word_count + words
        if t.word_limit < total_after then
          { tracker := t, stats := s, events := ev1, halt := true }
        else
          if checked.2 then
            let dataNoScores : EmailData :=
              { message_id := message_id, sender := sender, body := body, scores := none }
            let _result := upsert_email env.upsert
            { tracker := t
              stats := s
              events := ev1 ++ [Event.upsert message_id dataNoScores]
              halt := false }
          else
            let scored := get_gptzero_scores body t env.classifier
            let t1 := scored.1
            let ev2 := ev1 ++ [Event.classify message_id body]
            match scored.2.1, scored.2.2 with
            | some a, some h =>
              let dataScored : EmailData :=
                { message_id := message_id, sender := sender, body := body
                  scores := some (a, h) }
              let _result := upsert_email env.upsert
              { tracker := t1
                stats := { s with processed := s.processed + 1 }
                events := ev2 ++ [Event.upsert message_id dataScored]
                halt := false }
            | _, _ =>
              let dataNoScores : EmailData :=
                { message_id := message_id, sender := sender, body := body, scores := none }
              let _result := upsert_email env.upsert
              { tracker := t1
                stats := { s with skipped_rate_limit := s.skipped_rate_limit + 1 }
                events := ev2 ++ [Event.upsert message_id dataNoScores]
                halt := false }

/-- Result of the whole processing loop: final tracker and stats, the full
event trace, and the candidate items left unprocessed when the loop ended
(nonempty exactly when the quota circuit breaker fired). -/
structure LoopResult where
  tracker : UsageTracker
  stats : Stats
  events : List Event
  unprocessed : List ItemEnv
deriving DecidableEq

/-- The `for` loop of `main` over the candidate items: sequential, with
`break` ending iteration early on quota overshoot. -/
def run_loop : List ItemEnv → UsageTracker → Stats → LoopResult
  | [], t, s => { tracker := t, stats := s, events := [], unprocessed := [] }
  | env :: rest, t, s =>
    let r := process_item t s env
    if r.halt then
      { tracker := r.tracker, stats := r.stats, events := r.events, unprocessed := rest }
    else
      let r2 := run_loop rest r.tracker r.stats
      { tracker := r2.tracker
        stats := r2.stats
        events := r.events ++ r2.events
        unprocessed := r2.unprocessed }

/-- The end-of-run report printed by `main`: the aggregate statistics and
the usage-tracker snapshot.  Emitted after the loop ends, whether it ran to
completion or was halted by the quota circuit breaker; reaching it means no
exception was raised at run level. -/
structure RunReport where
  stats : Stats
  usage : UsageStats
deriving DecidableEq

/-- `main`, from the point where the candidate list is in hand: runs the
loop on a fresh tracker with the given word limit and fresh stats, then
emits the final report.  Returns the report with the loop result. -/
def run (limit : Nat) (items : List ItemEnv) : RunReport × LoopResult :=
  let r := run_loop items (UsageTracker.init limit) Stats.init
  ({ stats := r.stats, usage := r.tracker.get_stats }, r)

/-- The quota circuit-breaker condition of `main` for one item under tracker
state `t`: the item is not skipped as already-scored, its fetch succeeds,
its body is nonempty, and the projected total strictly exceeds the limit.
This is exactly the condition under which the loop body executes `break`. -/
def quota_overshoot (t : UsageTracker) (env : ItemEnv) : Bool :=
  let checked := check_email_exists env.lookup
  if checked.1 && checked.2 then false
  else
    match env.fetch with
    | .error _ => false
    | .ok m =>
      let body := get_email_body m
      if body == "" then false
      else decide (t.word_limit < t.word_count + count_words body)

/-- Whether a classifier response is a rate-limit or error outcome (the
`(None, None)` branches of `get_gptzero_scores`). -/
def classifier_failed : ClassifierResponse → Bool
  | .success _ _ => false
  | .rateLimited => true
  | .httpError _ => true
  | .exn => true

/-- The message identity an event concerns. -/
def event_id : Event → String
  | .checkExists i => i
  | .fetchMsg i => i
  | .classify i _ => i
  | .upsert i _ => i

/-- Whether an event is a fetch, classify or upsert for the given identity
(the existence lookup is excluded: it is the deduplication check itself). -/
def touches_id (id : String) : Event → Bool
  | .checkExists _ => false
  | .fetchMsg i => i == id
  | .classify i _ => i == id
  | .upsert i _ => i == id

/-- Whether an event is a classifier submission for the given identity. -/
def is_classify_of (id : String) : Event → Bool
  | .classify i _ => i == id
  | _ => false

/-- Whether an event is a store upsert for the given identity. -/
def is_upsert_of (id : String) : Event → Bool
  | .upsert i _ => i == id
  | _ => false

/-- The first part of a parts list whose `mimeType` is `text/plain` — the
part the claim under test calls "the first text/plain part". -/
def first_text_plain (parts : List MessagePart) : Option MessagePart :=
  parts.find? (fun p => p.mimeType == "text/plain")

/-- Body extraction as described by the amended specification words: for a
payload with a `parts` list, the decoded data of the first `text/plain`
part that carries a `data` field (empty string when no part qualifies, with
no fallback to the top-level body); for a payload without `parts`, the
top-level body's data when present; otherwise the empty string. -/
def get_email_body_spec (m : Message) : String :=
  match m.payload.parts with
  | some parts =>
    match parts.find? (fun p => p.mimeType == "text/plain" && p.body.data.isSome) with
    | some p => p.body.data.getD ""
    | none => ""
  | none =>
    match m.payload.body with
    | some b => b.data.getD ""
    | none => ""

/-- A sequence of `add_usage` calls on a tracker: the final tracker together
with the list of word counts each call returned (charged). -/
def charge_seq : List String → UsageTracker → UsageTracker × List Nat
  | [], t => (t, [])
  | text :: rest, t =>
    let step := t.add_usage text
    let tail := charge_seq rest step.1
    (tail.1, step.2 :: tail.2)

/-! ### Concrete fixtures used by closed theorems -/

/-- A single-part message whose top-level body decodes to `body`. -/
def mkSinglePartMessage (body : String) : Message :=
  { payload :=
    { parts := none
      body := some { data := some body }
      headers := [("From", "alice@example.com")] } }

/-- Tracker mid-run: 90 of 100 words consumed (the quota-boundary scenario). -/
def tracker90 : UsageTracker :=
  { word_count := 90, word_limit := 100, emails_processed := 4 }

/-- An item whose body counts 11 words, fresh in the store. -/
def envEleven : ItemEnv :=
  { message_id := "m-eleven"
    lookup := .ok []
    fetch := .ok (mkSinglePartMessage "a a a a a a a a a a a")
    classifier := .success (some 1) (some 0)
    upsert := .ok () }

/-- An item whose body counts 10 words, fresh in the store. -/
def envTen : ItemEnv :=
  { message_id := "m-ten"
    lookup := .ok []
    fetch := .ok (mkSinglePartMessage "a a a a a a a a a a")
    classifier := .success (some 1) (some 0)
    upsert := .ok () }

/-- An item whose classifier call is rate-limited; its body counts 3 words. -/
def envRateLimited : ItemEnv :=
  { message_id := "m-rl"
    lookup := .ok []
    fetch := .ok (mkSinglePartMessage "a a a")
    classifier := .rateLimited
    upsert := .ok () }

/-- An item whose store upsert raises, while lookup, fetch and classifier
all succeed. -/
def envUpsertFail : ItemEnv :=
  { message_id := "m-uf"
    lookup := .ok []
    fetch := .ok (mkSinglePartMessage "b b b b")
    classifier := .success (some 1) (some 0)
    upsert := .error () }

/-- An item whose identity already exists in the store with both scores. -/
def envAlreadyScored : ItemEnv :=
  { message_id := "m-dup"
    lookup := .ok [{ message_id := "m-dup", gpt_zero_ai := some 0, gpt_zero_human := some 1 }]
    fetch := .ok (mkSinglePartMessage "c c c")
    classifier := .success (some 1) (some 0)
    upsert := .ok () }

/-- A fresh, well-behaved item with a 3-word body and distinct identity. -/
def envFresh : ItemEnv :=
  { message_id := "m-new"
    lookup := .ok []
    fetch := .ok (mkSinglePartMessage "d d d")
    classifier := .success (some 1) (some 0)
    upsert := .ok () }

/-- An item whose store existence lookup raises, while the record in the
table (never seen by the pipeline) carries both scores. -/
def envLookupFail : ItemEnv :=
  { message_id := "m-lf"
    lookup := .error ()
    fetch := .ok (mkSinglePartMessage "e e e")
    classifier := .success (some 1) (some 0)
    upsert := .ok () }

/-- An item whose classifier responds HTTP 200 with `class_probabilities`
missing both the `ai` and the `human` field. -/
def envMissingFields : ItemEnv :=
  { message_id := "m-mf"
    lookup := .ok []
    fetch := .ok (mkSinglePartMessage "f f f")
    classifier := .success none none
    upsert := .ok () }

/-- An item whose fetched message decodes to an empty body. -/
def envEmptyBody : ItemEnv :=
  { message_id := "m-eb"
    lookup := .ok []
    fetch := .ok (mkSinglePartMessage "")
    classifier := .success (some 1) (some 0)
    upsert := .ok () }

/-- A `text/plain` part without a `data` key. -/
def partNoData : MessagePart := { mimeType := "text/plain", body := { data := none } }

/-- A `text/plain` part whose data decodes to `hello`. -/
def partWithData : MessagePart := { mimeType := "text/plain", body := { data := some "hello" } }

/-- A multipart message whose first `text/plain` part has no data but whose
second one does. -/
def msgTwoPlain : Message :=
  { payload := { parts := some [partNoData, partWithData], body := none, headers := [] } }

/-! ### Helper lemmas -/

lemma check_email_exists_cases (l : Except Unit (List EmailRow)) :
    check_email_exists l = (false, false) ∨
    check_email_exists l = (true, (check_email_exists l).2) := by
  cases l with
  | error e => exact Or.inl rfl
  | ok rows =>
    cases rows with
    | nil => exact Or.inl rfl
    | cons e rest => exact Or.inr rfl

lemma check_not_scored {l : Except Unit (List EmailRow)}
    (h : check_email_exists l ≠ (true, true)) :
    (check_email_exists l).2 = false := by
  rcases check_email_exists_cases l with h1 | h1
  · rw [h1]
  · by_contra hb
    rw [Bool.not_eq_false] at hb
    rw [hb] at h1
    exact h h1

lemma band_false_of_snd_false {p : Bool × Bool} (h : p.2 = false) :
    (p.1 && p.2) = false := by
  rw [h, Bool.and_false]

lemma get_gptzero_scores_tracker (text : String) (t : UsageTracker) (resp : ClassifierResponse) :
    (get_gptzero_scores text t resp).1 = (t.add_usage text).1 := by
  cases resp <;> rfl

lemma process_item_already_scored {t : UsageTracker} {s : Stats} {env : ItemEnv}
    (h : check_email_exists env.lookup = (true, true)) :
    process_item t s env =
      { tracker := t
        stats := { s with skipped_existing := s.skipped_existing + 1 }
        events := [Event.checkExists env.message_id]
        halt := false } := by
  simp [process_item, h]

lemma process_item_tracker (t : UsageTracker) (s : Stats) (env : ItemEnv) :
    (process_item t s env).tracker = t ∨
    ∃ m, env.fetch = .ok m ∧
      t.word_count + count_words (get_email_body m) ≤ t.word_limit ∧
      (process_item t s env).tracker = (t.add_usage (get_email_body m)).1 := by
  unfold process_item
  dsimp only
  split
  · exact Or.inl rfl
  · split
    · exact Or.inl rfl
    · next m heq =>
      split
      · exact Or.inl rfl
      · split
        · exact Or.inl rfl
        · next hq =>
          split
          · exact Or.inl rfl
          · refine Or.inr ⟨m, heq, Nat.not_lt.mp hq, ?_⟩
            split <;> exact get_gptzero_scores_tracker _ _ _

lemma add_usage_word_count (t : UsageTracker) (text : String) :
    (t.add_usage text).1.word_count = t.word_count + count_words text := rfl

lemma add_usage_word_limit (t : UsageTracker) (text : String) :
    (t.add_usage text).1.word_limit = t.word_limit := rfl

lemma process_item_tracker_inv {t : UsageTracker} (s : Stats) (env : ItemEnv)
    (h : t.word_count ≤ t.word_limit) :
    (process_item t s env).tracker.word_count ≤ (process_item t s env).tracker.word_limit ∧
    (process_item t s env).tracker.word_limit = t.word_limit := by
  rcases process_item_tracker t s env with h1 | ⟨m, _, hle, h1⟩
  · rw [h1]; exact ⟨h, rfl⟩
  · rw [h1, add_usage_word_count, add_usage_word_limit]
    exact ⟨hle, rfl⟩

lemma run_loop_tracker_inv (items : List ItemEnv) :
    ∀ (t : UsageTracker) (s : Stats), t.word_count ≤ t.word_limit →
    (run_loop items t s).tracker.word_count ≤ (run_loop items t s).tracker.word_limit ∧
    (run_loop items t s).tracker.word_limit = t.word_limit := by
  induction items with
  | nil => exact fun t s h => ⟨h, rfl⟩
  | cons env rest ih =>
    intro t s h
    unfold run_loop
    dsimp only
    split
    · exact process_item_tracker_inv s env h
    · have h1 := process_item_tracker_inv s env h
      have h2 := ih (process_item t s env).tracker (process_item t s env).stats h1.1
      exact ⟨h2.1, h2.2.trans h1.2⟩

lemma charge_seq_charges (texts : List String) :
    ∀ t : UsageTracker, (charge_seq texts t).2 = texts.map count_words := by
  induction texts with
  | nil => intro t; rfl
  | cons x xs ih => intro t; simp [charge_seq, ih, UsageTracker.add_usage]

lemma charge_seq_word_count (texts : List String) :
    ∀ t : UsageTracker,
      (charge_seq texts t).1.word_count = t.word_count + (texts.map count_words).sum := by
  induction texts with
  | nil => intro t; simp [charge_seq]
  | cons x xs ih =>
    intro t
    simp [charge_seq, ih, UsageTracker.add_usage]
    omega

lemma firstPlainData_eq (parts : List MessagePart) :
    firstPlainData parts =
      match parts.find? (fun p => p.mimeType == "text/plain" && p.body.data.isSome) with
      | some p => p.body.data.getD ""
      | none => "" := by
  induction parts with
  | nil => rfl
  | cons p rest ih =>
    cases hm : (p.mimeType == "text/plain") with
    | false => simp [firstPlainData, hm, List.find?, ih]
    | true =>
      cases hd : p.body.data with
      | some d => simp [firstPlainData, hm, List.find?, hd]
      | none => simp [firstPlainData, hm, List.find?, hd, ih]

lemma process_item_event_ids (t : UsageTracker) (s : Stats) (env : ItemEnv) :
    ((process_item t s env).events.all (fun e => event_id e == env.message_id)) = true := by
  unfold process_item
  dsimp only
  split
  · simp [event_id]
  · split
    · simp [event_id]
    · split
      · simp [event_id]
      · split
        · simp [event_id]
        · split
          · simp [event_id]
          · split <;> simp [event_id]

lemma touches_id_false {id mid : String} (h : mid ≠ id) :
    ∀ e, event_id e = mid → touches_id id e = false := by
  intro e
  cases e with
  | checkExists i => intro _; rfl
  | fetchMsg i =>
    intro hy
    simp only [event_id] at hy
    subst hy
    simp [touches_id, h]
  | classify i text =>
    intro hy
    simp only [event_id] at hy
    subst hy
    simp [touches_id, h]
  | upsert i d =>
    intro hy
    simp only [event_id] at hy
    subst hy
    simp [touches_id, h]

lemma process_item_halt_iff (t : UsageTracker) (s : Stats) (env : ItemEnv) :
    (process_item t s env).halt = quota_overshoot t env := by
  unfold process_item quota_overshoot
  dsimp only
  split
  · rfl
  · split
    · rfl
    · split
      · rfl
      · split
        · next hq => simp [hq]
        · next hq =>
          split
          · simp [hq]
          · split <;> simp [hq]

lemma process_item_no_touch {t : UsageTracker} {s : Stats} {env : ItemEnv} {id : String}
    (h : env.message_id ≠ id) :
    ((process_item t s env).events.all (fun e => ! touches_id id e)) = true := by
  rw [List.all_eq_true]
  intro e he
  have hid := process_item_event_ids t s env
  rw [List.all_eq_true] at hid
  have h1 : event_id e = env.message_id := by
    have := hid e he
    simpa using this
  rw [touches_id_false h e h1]
  rfl

lemma run_loop_no_touch (items : List ItemEnv) :
    ∀ (t : UsageTracker) (s : Stats) (id : String),
    (∀ env ∈ items, env.message_id = id → check_email_exists env.lookup = (true, true)) →
    ((run_loop items t s).events.all (fun e => ! touches_id id e)) = true := by
  induction items with
  | nil => intro t s id _; rfl
  | cons env rest ih =>
    intro t s id h
    have hhead : ((process_item t s env).events.all (fun e => ! touches_id id e)) = true := by
      by_cases hid : env.message_id = id
      · have hck := h env (List.mem_cons_self env rest) hid
        rw [process_item_already_scored hck]
        rfl
      · exact process_item_no_touch hid
    unfold run_loop
    dsimp only
    split
    · exact hhead
    · have htail := ih (process_item t s env).tracker (process_item t s env).stats id
        (fun e hm hy => h e (List.mem_cons_of_mem env hm) hy)
      dsimp only
      rw [List.all_append, hhead, htail]
      rfl

lemma quota_overshoot_facts {t : UsageTracker} {env : ItemEnv}
    (h : quota_overshoot t env = true) :
    ((check_email_exists env.lookup).1 && (check_email_exists env.lookup).2) = false ∧
    ∃ m, env.fetch = .ok m ∧ (get_email_body m == "") = false ∧
      t.word_limit < t.word_count + count_words (get_email_body m) := by
  unfold quota_overshoot at h
  dsimp only at h
  split at h
  · exact absurd h (by simp)
  · next hck =>
    constructor
    · simpa using hck
    · split at h
      · exact absurd h (by simp)
      · next m heq =>
        refine ⟨m, heq, ?_, ?_⟩
        · split at h
          · exact absurd h (by simp)
          · next hb => simpa using hb
        · split at h
          · exact absurd h (by simp)
          · exact of_decide_eq_true h

lemma process_item_quota_halt {t : UsageTracker} {s : Stats} {env : ItemEnv}
    (h : quota_overshoot t env = true) :
    process_item t s env =
      { tracker := t
        stats := s
        events := [Event.checkExists env.message_id, Event.fetchMsg env.message_id]
        halt := true } := by
  obtain ⟨hband, m, heq, hb, hlt⟩ := quota_overshoot_facts h
  simp [process_item, hband, heq, hb, hlt]

lemma get_gptzero_scores_failed {resp : ClassifierResponse}
    (h : classifier_failed resp = true) (text : String) (t : UsageTracker) :
    get_gptzero_scores text t resp = ((t.add_usage text).1, none, none) := by
  cases resp with
  | success ai human => exact absurd h (by simp [classifier_failed])
  | rateLimited => rfl
  | httpError st => rfl
  | exn => rfl

lemma process_item_classifier_failed {t : UsageTracker} {s : Stats} {env : ItemEnv}
    {m : Message}
    (hck : check_email_exists env.lookup ≠ (true, true))
    (hf : env.fetch = .ok m)
    (hb : get_email_body m ≠ "")
    (hq : t.word_count + count_words (get_email_body m) ≤ t.word_limit)
    (hcf : classifier_failed env.classifier = true) :
    process_item t s env =
      { tracker := (t.add_usage (get_email_body m)).1
        stats := { s with skipped_rate_limit := s.skipped_rate_limit + 1 }
        events := [Event.checkExists env.message_id, Event.fetchMsg env.message_id,
                   Event.classify env.message_id (get_email_body m),
                   Event.upsert env.message_id
                     { message_id := env.message_id, sender := get_sender m
                       body := get_email_body m, scores := none }]
        halt := false } := by
  have hsnd := check_not_scored hck
  have hband := band_false_of_snd_false hsnd
  have hfail := get_gptzero_scores_failed hcf (get_email_body m) t
  simp [process_item, hband, hsnd, hf, hb, Nat.not_lt.mpr hq, hfail]

lemma process_item_empty_body {t : UsageTracker} {s : Stats} {env : ItemEnv} {m : Message}
    (hck : check_email_exists env.lookup ≠ (true, true))
    (hf : env.fetch = Except.ok m)
    (hb : get_email_body m = "") :
    process_item t s env =
      { tracker := t
        stats := { s with errors := s.errors + 1 }
        events := [Event.checkExists env.message_id, Event.fetchMsg env.message_id]
        halt := false } := by
  have hsnd := check_not_scored hck
  have hband := band_false_of_snd_false hsnd
  simp [process_item, hband, hf, hb]

lemma process_item_classifier_success {t : UsageTracker} {s : Stats} {env : ItemEnv}
    {m : Message} {ai human : Option Rat}
    (hck : check_email_exists env.lookup ≠ (true, true))
    (hf : env.fetch = .ok m)
    (hb : get_email_body m ≠ "")
    (hq : t.word_count + count_words (get_email_body m) ≤ t.word_limit)
    (hc : env.classifier = .success ai human) :
    process_item t s env =
      { tracker := (t.add_usage (get_email_body m)).1
        stats := { s with processed := s.processed + 1 }
        events := [Event.checkExists env.message_id, Event.fetchMsg env.message_id,
                   Event.classify env.message_id (get_email_body m),
                   Event.upsert env.message_id
                     { message_id := env.message_id, sender := get_sender m
                       body := get_email_body m, scores := some (ai.getD 0, human.getD 0) }]
        halt := false } := by
  have hsnd := check_not_scored hck
  have hband := band_false_of_snd_false hsnd
  have hsucc : get_gptzero_scores (get_email_body m) t env.classifier =
      ((t.add_usage (get_email_body m)).1, some (ai.getD 0), some (human.getD 0)) := by
    rw [hc]; rfl
  simp [process_item, hband, hsnd, hf, hb, Nat.not_lt.mpr hq, hsucc]

/-! ### Claims -/

/-- C1: Throughout any run, the tracker's `word_count` never exceeds
`word_limit`: starting from 0, every scoring call is preceded by the
projected-total check, and the amount charged equals the projected count,
so after every charge `word_count ≤ word_limit`.  Stated for every prefix
of every candidate list, covering every intermediate state of the loop. -/
theorem words_consumed_never_exceeds_ceiling (limit : Nat) (items : List ItemEnv) (n : Nat) :
    (run_loop (items.take n) (UsageTracker.init limit) Stats.init).tracker.word_count ≤ limit := by
  have h := run_loop_tracker_inv (items.take n) (UsageTracker.init limit) Stats.init
    (Nat.zero_le _)
  exact le_of_le_of_eq h.1 h.2

/-- C2 counterexample: a rate-limited item DOES change `word_count` — the
code charges usage inside `get_gptzero_scores` before the HTTP call, so a
fresh 100-word-limit run over one rate-limited 3-word item ends with
`word_count = 3`, not 0 as the claim requires. -/
theorem rate_limited_item_still_charged_cx :
    envRateLimited.classifier = ClassifierResponse.rateLimited ∧
    (UsageTracker.init 100).word_count = 0 ∧
    count_words "a a a" = 3 ∧
    (run_loop [envRateLimited] (UsageTracker.init 100) Stats.init).tracker.word_count = 3 := by
  decide

/-- C2 amended: for every item whose classifier call ends in rate-limit or
error, the record is persisted via upsert without scores and
`skipped_rate_limit` is incremented by one — but `word_count` is increased
by the item's word count (usage is charged before the classifier call even
on rate-limit or error), not left unchanged. -/
theorem rate_limited_item_outcome (t : UsageTracker) (s : Stats) (env : ItemEnv) (m : Message)
    (hck : check_email_exists env.lookup ≠ (true, true))
    (hf : env.fetch = .ok m)
    (hb : get_email_body m ≠ "")
    (hq : t.word_count + count_words (get_email_body m) ≤ t.word_limit)
    (hcf : classifier_failed env.classifier = true) :
    (process_item t s env).stats.skipped_rate_limit = s.skipped_rate_limit + 1 ∧
    (process_item t s env).stats.processed = s.processed ∧
    (process_item t s env).stats.errors = s.errors ∧
    (process_item t s env).halt = false ∧
    (process_item t s env).tracker.word_count = t.word_count + count_words (get_email_body m) ∧
    Event.upsert env.message_id
      { message_id := env.message_id, sender := get_sender m
        body := get_email_body m, scores := none } ∈ (process_item t s env).events := by
  rw [process_item_classifier_failed hck hf hb hq hcf]
  refine ⟨rfl, rfl, rfl, rfl, rfl, ?_⟩
  simp

/-- C2 witness: the amended claim at a concrete rate-limited 3-word item. -/
theorem rate_limited_item_outcome_witness :
    (process_item (UsageTracker.init 100) Stats.init envRateLimited).stats.skipped_rate_limit =
      Stats.init.skipped_rate_limit + 1 ∧
    (process_item (UsageTracker.init 100) Stats.init envRateLimited).stats.processed =
      Stats.init.processed ∧
    (process_item (UsageTracker.init 100) Stats.init envRateLimited).stats.errors =
      Stats.init.errors ∧
    (process_item (UsageTracker.init 100) Stats.init envRateLimited).halt = false ∧
    (process_item (UsageTracker.init 100) Stats.init envRateLimited).tracker.word_count =
      (UsageTracker.init 100).word_count +
        count_words (get_email_body (mkSinglePartMessage "a a a")) ∧
    Event.upsert envRateLimited.message_id
      { message_id := envRateLimited.message_id
        sender := get_sender (mkSinglePartMessage "a a a")
        body := get_email_body (mkSinglePartMessage "a a a"), scores := none } ∈
      (process_item (UsageTracker.init 100) Stats.init envRateLimited).events :=
  rate_limited_item_outcome (UsageTracker.init 100) Stats.init envRateLimited
    (mkSinglePartMessage "a a a") (by decide) rfl (by decide) (by decide) rfl

/-- C3: with ceiling 100 and 90 words consumed, an 11-word item halts the
run before any classifier call (tracker unchanged, classify absent from
its trace, the second candidate left unprocessed), while a 10-word item is
scored and `word_count` becomes exactly 100 — the check is strict
greater-than against the ceiling. -/
theorem quota_boundary_strict_gt :
    count_words "a a a a a a a a a a a" = 11 ∧
    count_words "a a a a a a a a a a" = 10 ∧
    tracker90.word_count = 90 ∧
    tracker90.word_limit = 100 ∧
    (process_item tracker90 Stats.init envEleven).halt = true ∧
    ((process_item tracker90 Stats.init envEleven).events.any
      (fun e => is_classify_of envEleven.message_id e)) = false ∧
    (process_item tracker90 Stats.init envEleven).tracker.word_count = 90 ∧
    (run_loop [envEleven, envTen] tracker90 Stats.init).unprocessed = [envTen] ∧
    (process_item tracker90 Stats.init envTen).halt = false ∧
    ((process_item tracker90 Stats.init envTen).events.any
      (fun e => is_classify_of envTen.message_id e)) = true ∧
    (process_item tracker90 Stats.init envTen).stats.processed = 1 ∧
    (process_item tracker90 Stats.init envTen).tracker.word_count = 100 := by
  decide

/-- C4: a candidate identity that the store reports as existing with both
scores is never fetched, classified or upserted anywhere in the run's
trace, and each such item's iteration is exactly a `skipped_existing`
increment with no tracker change. -/
theorem already_scored_never_resubmitted (items : List ItemEnv) (t : UsageTracker) (s : Stats)
    (id : String)
    (h : ∀ env ∈ items, env.message_id = id → check_email_exists env.lookup = (true, true)) :
    ((run_loop items t s).events.all (fun e => ! touches_id id e)) = true ∧
    ∀ env ∈ items, env.message_id = id →
      process_item t s env =
        { tracker := t
          stats := { s with skipped_existing := s.skipped_existing + 1 }
          events := [Event.checkExists env.message_id]
          halt := false } := by
  refine ⟨run_loop_no_touch items t s id h, ?_⟩
  intro env hm hy
  exact process_item_already_scored (h env hm hy)

/-- C4 witness: a concrete run over an already-scored identity and a fresh
one — the already-scored identity is never fetched, classified or
upserted. -/
theorem already_scored_never_resubmitted_witness :
    ((run_loop [envAlreadyScored, envFresh] (UsageTracker.init 100) Stats.init).events.all
      (fun e => ! touches_id "m-dup" e)) = true ∧
    ∀ env ∈ [envAlreadyScored, envFresh], env.message_id = "m-dup" →
      process_item (UsageTracker.init 100) Stats.init env =
        { tracker := UsageTracker.init 100
          stats := { Stats.init with skipped_existing := Stats.init.skipped_existing + 1 }
          events := [Event.checkExists env.message_id]
          halt := false } :=
  already_scored_never_resubmitted [envAlreadyScored, envFresh] (UsageTracker.init 100)
    Stats.init "m-dup" (by decide)

/-- C5: when the projected total for the current item would exceed the
ceiling, the whole run halts — the remaining candidates are returned
unprocessed, no classifier call is made, and the statistics and tracker
reaching the end-of-run report are exactly the ones accumulated so far
(the halt is a `break`, not a raised failure: the loop returns a value). -/
theorem quota_overshoot_halts_run (t : UsageTracker) (s : Stats) (env : ItemEnv)
    (rest : List ItemEnv)
    (h : quota_overshoot t env = true) :
    run_loop (env :: rest) t s =
      { tracker := t
        stats := s
        events := [Event.checkExists env.message_id, Event.fetchMsg env.message_id]
        unprocessed := rest } ∧
    ({ stats := (run_loop (env :: rest) t s).stats
       usage := (run_loop (env :: rest) t s).tracker.get_stats } : RunReport) =
      { stats := s, usage := t.get_stats } := by
  have hmain : run_loop (env :: rest) t s =
      { tracker := t
        stats := s
        events := [Event.checkExists env.message_id, Event.fetchMsg env.message_id]
        unprocessed := rest } := by
    unfold run_loop
    dsimp only
    rw [process_item_quota_halt h]
    rfl
  exact ⟨hmain, by rw [hmain]⟩

/-- C5 witness: the overshoot halt at tracker 90/100 with an 11-word item
followed by a second candidate. -/
theorem quota_overshoot_halts_run_witness :
    run_loop [envEleven, envTen] tracker90 Stats.init =
      { tracker := tracker90
        stats := Stats.init
        events := [Event.checkExists envEleven.message_id, Event.fetchMsg envEleven.message_id]
        unprocessed := [envTen] } ∧
    ({ stats := (run_loop [envEleven, envTen] tracker90 Stats.init).stats
       usage := (run_loop [envEleven, envTen] tracker90 Stats.init).tracker.get_stats } :
        RunReport) =
      { stats := Stats.init, usage := tracker90.get_stats } :=
  quota_overshoot_halts_run tracker90 Stats.init envEleven [envTen] (by decide)

/-- C6 counterexample: an upsert failure is NOT classified into the run
statistics — a run over a single item whose upsert raises (everything else
succeeding) ends with `processed = 1` and `errors = 0`: the failure leaves
no trace in any statistics counter, contradicting the claim that every
item-local failure is classified into RunStatistics. -/
theorem upsert_failure_unclassified_cx :
    envUpsertFail.upsert = Except.error () ∧
    (run_loop [envUpsertFail] (UsageTracker.init 1000) Stats.init).stats =
      { processed := 1, skipped_existing := 0, skipped_rate_limit := 0, errors := 0 } ∧
    (run_loop [envUpsertFail] (UsageTracker.init 1000) Stats.init).unprocessed = [] := by
  decide

/-- C6 amended: every item-local failure is caught at the per-item boundary
and iteration continues — the loop body halts exactly on the quota
overshoot condition and on nothing else; classifier rate-limit/error and
empty body are classified into the statistics, but an upsert failure is
swallowed with no effect on the item's result, and a store lookup failure
makes the item behave exactly as if the identity were absent from the
store, with the failure itself never counted. -/
theorem item_failures_never_halt (t : UsageTracker) (s : Stats) (env : ItemEnv) :
    (process_item t s env).halt = quota_overshoot t env ∧
    process_item t s { env with upsert := Except.error () } =
      process_item t s { env with upsert := Except.ok () } ∧
    process_item t s { env with lookup := Except.error () } =
      process_item t s { env with lookup := Except.ok [] } ∧
    (∀ m, env.fetch = Except.ok m → get_email_body m = "" →
      check_email_exists env.lookup ≠ (true, true) →
      (process_item t s env).stats = { s with errors := s.errors + 1 }) ∧
    (∀ m, env.fetch = Except.ok m → get_email_body m ≠ "" →
      check_email_exists env.lookup ≠ (true, true) →
      t.word_count + count_words (get_email_body m) ≤ t.word_limit →
      classifier_failed env.classifier = true →
      (process_item t s env).stats =
        { s with skipped_rate_limit := s.skipped_rate_limit + 1 }) := by
  refine ⟨process_item_halt_iff t s env, rfl, rfl, ?_, ?_⟩
  · intro m hf hb hck
    rw [process_item_empty_body hck hf hb]
  · intro m hf hb hck hq hcf
    rw [process_item_classifier_failed hck hf hb hq hcf]

/-- C6 witness: the amended claim at concrete items — an empty-body item is
counted in `errors`, a rate-limited item in `skipped_rate_limit`, and
neither halts the loop. -/
theorem item_failures_never_halt_witness :
    (process_item (UsageTracker.init 100) Stats.init envEmptyBody).halt =
      quota_overshoot (UsageTracker.init 100) envEmptyBody ∧
    (process_item (UsageTracker.init 100) Stats.init envEmptyBody).stats =
      { Stats.init with errors := Stats.init.errors + 1 } ∧
    (process_item (UsageTracker.init 100) Stats.init envRateLimited).stats =
      { Stats.init with skipped_rate_limit := Stats.init.skipped_rate_limit + 1 } :=
  ⟨(item_failures_never_halt (UsageTracker.init 100) Stats.init envEmptyBody).1,
   (item_failures_never_halt (UsageTracker.init 100) Stats.init envEmptyBody).2.2.2.1
     (mkSinglePartMessage "") rfl (by decide) (by decide),
   (item_failures_never_halt (UsageTracker.init 100) Stats.init envRateLimited).2.2.2.2
     (mkSinglePartMessage "a a a") rfl (by decide) (by decide) (by decide) rfl⟩

/-- C7: for every sequence of `add_usage` calls on a fresh tracker, the
final `word_count` equals the sum of the word counts the calls returned,
and the count never decreases across the sequence (every prefix's total is
bounded by the final total). -/
theorem usage_sum_of_charges (limit : Nat) (texts : List String) (n : Nat) :
    (charge_seq texts (UsageTracker.init limit)).1.word_count =
      ((charge_seq texts (UsageTracker.init limit)).2).sum ∧
    (charge_seq (texts.take n) (UsageTracker.init limit)).1.word_count ≤
      (charge_seq texts (UsageTracker.init limit)).1.word_count := by
  constructor
  · rw [charge_seq_word_count, charge_seq_charges]
    simp [UsageTracker.init]
  · rw [charge_seq_word_count, charge_seq_word_count]
    have hsplit : texts = texts.take n ++ texts.drop n := (List.take_append_drop n texts).symm
    conv_rhs => rw [hsplit]
    rw [List.map_append, List.sum_append]
    exact Nat.add_le_add_left (Nat.le_add_right _ _) _

/-- C8 counterexample: for a multipart message whose FIRST `text/plain`
part carries no `data` key while a later `text/plain` part does, the code
returns the later part's data — not "the first text/plain part's decoded
data" (the first text/plain part has none), refuting the claim's universal
statement about multipart messages. -/
theorem body_not_first_plain_part_cx :
    msgTwoPlain.payload.parts = some [partNoData, partWithData] ∧
    first_text_plain [partNoData, partWithData] = some partNoData ∧
    partNoData.mimeType = "text/plain" ∧
    partNoData.body.data = none ∧
    get_email_body msgTwoPlain = "hello" := by
  decide

/-- C8 amended: body extraction always yields a (possibly empty) string;
for a payload with a parts list it returns the decoded data of the first
`text/plain` part that carries data (empty string if none qualifies, with
no fallback to the top-level body); for a payload without parts it returns
the top-level body's data when present, else the empty string. -/
theorem email_body_extraction_refines (m : Message) :
    get_email_body m = get_email_body_spec m := by
  rcases m with ⟨⟨parts, body, headers⟩⟩
  cases parts with
  | some ps => exact firstPlainData_eq ps
  | none =>
    cases body with
    | some b =>
      cases hd : b.data with
      | some d => simp [get_email_body, get_email_body_spec, hd]
      | none => simp [get_email_body, get_email_body_spec, hd]
    | none => rfl

/-- C9: if the store existence lookup raises, `check_email_exists` returns
`(false, false)` and the pipeline proceeds exactly as if the identity were
new — the classifier and the upsert are both invoked (so an identity whose
stored record already carries both scores can be scored again), and the
lookup failure leaves no mark in the statistics (`errors` and
`skipped_existing` unchanged); the item behaves identically to one whose
lookup returned no rows. -/
theorem lookup_failure_treated_as_new (t : UsageTracker) (s : Stats) (env : ItemEnv)
    (m : Message)
    (hl : env.lookup = Except.error ())
    (hf : env.fetch = Except.ok m)
    (hb : get_email_body m ≠ "")
    (hq : t.word_count + count_words (get_email_body m) ≤ t.word_limit) :
    check_email_exists env.lookup = (false, false) ∧
    ((process_item t s env).events.any (fun e => is_classify_of env.message_id e)) = true ∧
    ((process_item t s env).events.any (fun e => is_upsert_of env.message_id e)) = true ∧
    (process_item t s env).stats.errors = s.errors ∧
    (process_item t s env).stats.skipped_existing = s.skipped_existing ∧
    process_item t s env = process_item t s { env with lookup := Except.ok [] } := by
  have hck : check_email_exists env.lookup = (false, false) := by rw [hl]; rfl
  have hne : check_email_exists env.lookup ≠ (true, true) := by rw [hck]; simp
  have hlast : process_item t s env = process_item t s { env with lookup := Except.ok [] } := by
    obtain ⟨mid, lk, fet, cls, ups⟩ := env
    dsimp only at hl
    subst hl
    rfl
  have hmain :
      ((process_item t s env).events.any (fun e => is_classify_of env.message_id e)) = true ∧
      ((process_item t s env).events.any (fun e => is_upsert_of env.message_id e)) = true ∧
      (process_item t s env).stats.errors = s.errors ∧
      (process_item t s env).stats.skipped_existing = s.skipped_existing := by
    cases hcls : env.classifier with
    | success ai human =>
      rw [process_item_classifier_success hne hf hb hq hcls]
      refine ⟨?_, ?_, rfl, rfl⟩ <;> simp [is_classify_of, is_upsert_of]
    | rateLimited =>
      rw [process_item_classifier_failed hne hf hb hq (by rw [hcls]; rfl)]
      refine ⟨?_, ?_, rfl, rfl⟩ <;> simp [is_classify_of, is_upsert_of]
    | httpError st =>
      rw [process_item_classifier_failed hne hf hb hq (by rw [hcls]; rfl)]
      refine ⟨?_, ?_, rfl, rfl⟩ <;> simp [is_classify_of, is_upsert_of]
    | exn =>
      rw [process_item_classifier_failed hne hf hb hq (by rw [hcls]; rfl)]
      refine ⟨?_, ?_, rfl, rfl⟩ <;> simp [is_classify_of, is_upsert_of]
  exact ⟨hck, hmain.1, hmain.2.1, hmain.2.2.1, hmain.2.2.2, hlast⟩

/-- C9 witness: a concrete item whose lookup raises — the full score and
persist path runs, and the failure is not counted. -/
theorem lookup_failure_treated_as_new_witness :
    check_email_exists envLookupFail.lookup = (false, false) ∧
    ((process_item (UsageTracker.init 50) Stats.init envLookupFail).events.any
      (fun e => is_classify_of envLookupFail.message_id e)) = true ∧
    ((process_item (UsageTracker.init 50) Stats.init envLookupFail).events.any
      (fun e => is_upsert_of envLookupFail.message_id e)) = true ∧
    (process_item (UsageTracker.init 50) Stats.init envLookupFail).stats.errors =
      Stats.init.errors ∧
    (process_item (UsageTracker.init 50) Stats.init envLookupFail).stats.skipped_existing =
      Stats.init.skipped_existing ∧
    process_item (UsageTracker.init 50) Stats.init envLookupFail =
      process_item (UsageTracker.init 50) Stats.init
        { envLookupFail with lookup := Except.ok [] } :=
  lookup_failure_treated_as_new (UsageTracker.init 50) Stats.init envLookupFail
    (mkSinglePartMessage "e e e") rfl rfl (by decide) (by decide)

/-- C10: on an HTTP 200 classifier response, missing `ai` / `human` fields
of `class_probabilities` default to 0, so the success branch always yields
a numeric score pair (never the None/None error signal): the item counts
as processed and both scores — possibly 0 — are attached to the persisted
record, rather than the item being treated as a classifier error. -/
theorem success_always_yields_scores (t : UsageTracker) (s : Stats) (env : ItemEnv)
    (m : Message) (ai human : Option Rat)
    (hck : check_email_exists env.lookup ≠ (true, true))
    (hf : env.fetch = Except.ok m)
    (hb : get_email_body m ≠ "")
    (hq : t.word_count + count_words (get_email_body m) ≤ t.word_limit)
    (hc : env.classifier = .success ai human) :
    (get_gptzero_scores (get_email_body m) t env.classifier).2 =
      (some (ai.getD 0), some (human.getD 0)) ∧
    (process_item t s env).stats.processed = s.processed + 1 ∧
    (process_item t s env).stats.skipped_rate_limit = s.skipped_rate_limit ∧
    Event.upsert env.message_id
      { message_id := env.message_id, sender := get_sender m
        body := get_email_body m, scores := some (ai.getD 0, human.getD 0) } ∈
      (process_item t s env).events := by
  refine ⟨by rw [hc]; rfl, ?_, ?_, ?_⟩ <;>
    simp [process_item_classifier_success hck hf hb hq hc]

/-- C10 witness: a concrete HTTP 200 response with both probability fields
missing — the item is scored with the pair (0, 0). -/
theorem success_always_yields_scores_witness :
    (get_gptzero_scores (get_email_body (mkSinglePartMessage "f f f")) (UsageTracker.init 50)
      envMissingFields.classifier).2 =
      (some ((none : Option Rat).getD 0), some ((none : Option Rat).getD 0)) ∧
    (process_item (UsageTracker.init 50) Stats.init envMissingFields).stats.processed =
      Stats.init.processed + 1 ∧
    (process_item (UsageTracker.init 50) Stats.init envMissingFields).stats.skipped_rate_limit =
      Stats.init.skipped_rate_limit ∧
    Event.upsert envMissingFields.message_id
      { message_id := envMissingFields.message_id
        sender := get_sender (mkSinglePartMessage "f f f")
        body := get_email_body (mkSinglePartMessage "f f f")
        scores := some ((none : Option Rat).getD 0, (none : Option Rat).getD 0) } ∈
      (process_item (UsageTracker.init 50) Stats.init envMissingFields).events :=
  success_always_yields_scores (UsageTracker.init 50) Stats.init envMissingFields
    (mkSinglePartMessage "f f f") none none (by decide) rfl (by decide) (by decide) rfl

end EmailParser
